import Mathlib

/-!
# Verification of the JobAppREST repository

Shallow embedding of the three source modules:

* `api_client.py` — `get_jobs`, fetching and normalizing external job listings;
* `app.py`       — the Flask route handlers `/submit`, `POST /api/applications`
                   and `PATCH /api/applications/<id>`;
* `database.py`  — `add_application` / `get_all_applications` over a MongoDB
                   collection.

Conventions of the embedding:

* JSON values (and BSON documents) are modelled by the inductive `JValue`;
  numbers are modelled as integers (no claim involves fractional values).
  Python dicts parsed from JSON have unique keys, modelled as association
  lists read through `jget` (first match).
* MongoDB `ObjectId`s are modelled as naturals drawn from a per-collection
  counter (`MongoState.nextOid`); their string rendering `oidStr` is an
  injective textual form standing in for the 24-hex-character rendering of a
  real 12-byte ObjectId, and `parseObjectId` stands in for the
  `bson.ObjectId(string)` constructor, which raises `InvalidId` on strings it
  cannot parse.
* Python exceptions that can escape a function are made explicit with
  `Except PyErr`; code paths that swallow exceptions (the `try/except` blocks
  of `get_jobs`) return `.ok` values.
* The module-global MongoDB collection is threaded explicitly as a
  `MongoState` value.
-/

/-- A JSON/BSON value as produced by `response.json()` / stored in MongoDB.
`oid` is a BSON ObjectId (never produced by JSON parsing). -/
inductive JValue where
  | null
  | bool (b : Bool)
  | num (n : Int)
  | str (s : String)
  | oid (n : Nat)
  | arr (xs : List JValue)
  | obj (kvs : List (String × JValue))

/-- A document / parsed JSON object: an association list of fields
(unique keys, insertion-ordered, as a Python dict). -/
abbrev Doc := List (String × JValue)

/-- `d.get(k)` on a Python dict (without default): first matching key. -/
def jget : Doc → String → Option JValue
  | [], _ => none
  | (k', v) :: rest, k => if k' = k then some v else jget rest k

/-- `d[k] = v` on a Python dict: overwrite in place if the key exists
(keeping its position), otherwise append the new key at the end. -/
def setK : Doc → String → JValue → Doc
  | [], k, v => [(k, v)]
  | (k', v') :: rest, k, v =>
    if k' = k then (k, v) :: rest else (k', v') :: setK rest k v

/-- The decimal digit character for `d` (`'0'`–`'9'` when `d < 10`). -/
def digitChar (d : Nat) : Char := Char.ofNat (48 + d)

/-- Little-endian decimal digits of `n` (least significant first), with a
structural fuel argument so that the definition reduces by computation;
`natCharsRev` supplies sufficient fuel. -/
def natCharsRevFuel : Nat → Nat → List Char
  | 0, _ => []
  | fuel + 1, n =>
    if n < 10 then [digitChar n]
    else digitChar (n % 10) :: natCharsRevFuel fuel (n / 10)

/-- Little-endian decimal digits of `n` (least significant first). -/
def natCharsRev (n : Nat) : List Char := natCharsRevFuel (n + 1) n

/-- `str(ObjectId)`: the textual rendering of an ObjectId.  The real library
renders 24 hex characters of a 12-byte value; the model renders the id
counter in decimal after a fixed tag, which is likewise injective. -/
def oidStr (n : Nat) : String := ⟨'o' :: 'i' :: 'd' :: (natCharsRev n).reverse⟩

/-- `bson.ObjectId(s)`: parses the rendering accepted by the model, `none`
standing for the `InvalidId` exception raised on any other string. -/
def parseObjectId (s : String) : Option Nat :=
  match s.data with
  | 'o' :: 'i' :: 'd' :: rest =>
    if rest ≠ [] ∧ rest.all (fun c => 48 ≤ c.toNat ∧ c.toNat < 58) then
      some (rest.foldl (fun acc c => acc * 10 + (c.toNat - 48)) 0)
    else none
  | _ => none

mutual

/-- Python `repr` on values parsed from JSON (and on ObjectId string forms),
used by `str` for the elements of nested containers.  For strings the model
always uses single quotes (the real `repr` switches to double quotes when the
string itself contains a single quote; no claim depends on that corner). -/
def pyRepr : JValue → String
  | .null => "None"
  | .bool true => "True"
  | .bool false => "False"
  | .num n => toString n
  | .str s => "'" ++ s ++ "'"
  | .oid n => oidStr n
  | .arr xs => "[" ++ pyReprList xs ++ "]"
  | .obj kvs => "\x7b" ++ pyReprObj kvs ++ "\x7d"

def pyReprList : List JValue → String
  | [] => ""
  | [x] => pyRepr x
  | x :: y :: rest => pyRepr x ++ ", " ++ pyReprList (y :: rest)

def pyReprObj : List (String × JValue) → String
  | [] => ""
  | [(k, v)] => "'" ++ k ++ "': " ++ pyRepr v
  | (k, v) :: y :: rest => "'" ++ k ++ "': " ++ pyRepr v ++ ", " ++ pyReprObj (y :: rest)

end

/-- Python `str(v)`: identity on strings, `repr` otherwise (`str(None) =
"None"`, `str(5) = "5"`, `str(True) = "True"`, containers via `repr`;
`str(ObjectId)` is the plain id rendering). -/
def pyStr : JValue → String
  | .str s => s
  | v => pyRepr v

/-- Python truthiness of a JSON value (`bool(v)`). -/
def pyTruthy : JValue → Bool
  | .null => false
  | .bool b => b
  | .num n => n != 0
  | .str s => !(s == "")
  | .oid _ => true
  | .arr xs => !xs.isEmpty
  | .obj kvs => !kvs.isEmpty

/-! ## `api_client.py` — `get_jobs` -/

/-- A normalized job listing as produced by `get_jobs` (the four keys the
normalization loop keeps). -/
structure JobListing where
  title : String
  company : String
  location : String
  link : String
deriving DecidableEq, Repr

/-- A Python exception escaping a modelled function. -/
inductive PyErr where
  | attributeError
  | invalidId
deriving DecidableEq, Repr

/-- The body of an HTTP response as seen through `response.json()`:
either not parseable as JSON (`ValueError`) or a parsed JSON value. -/
inductive RespBody where
  | nonJson
  | json (v : JValue)

/-- The abstract outcome of `requests.get(url, params, timeout=10)`:
either an exception out of `requests.get` itself (connection error,
timeout, ...) or a response with a status code and a body. -/
inductive HttpOutcome where
  | netError
  | response (status : Nat) (body : RespBody)

/-- One iteration of the normalization loop of `get_jobs`:
`job.get(k, default)` with `str(...)` coercion on a dict element; on a
non-dict element `job.get` raises `AttributeError` (uncaught in the source,
the loop sits outside both `try` blocks). -/
def normalizeJob : JValue → Except PyErr JobListing
  | .obj kvs => .ok
      { title := pyStr ((jget kvs "title").getD (.str "N/A"))
        company := pyStr ((jget kvs "company").getD (.str ""))
        location := pyStr ((jget kvs "location").getD (.str ""))
        link := pyStr ((jget kvs "link").getD (.str "")) }
  | _ => .error .attributeError

/-- `api_client.get_jobs(job_title)`.  The HTTP interaction
(`requests.get` on `BASE_URL + "/jobs"` with `params={"search": job_title}`)
is abstracted into the `HttpOutcome` argument.  The first `try/except
Exception` swallows network errors and `raise_for_status()` (which raises
exactly for status codes in [400, 600)); the second `try/except ValueError`
swallows a non-JSON body.  `data.get("jobs")` raises `AttributeError` when
the parsed body is not an object; a non-list `jobs` value yields `[]`; the
normalization loop runs `normalizeJob` over the elements in order. -/
def get_jobs (job_title : String) (o : HttpOutcome) : Except PyErr (List JobListing) :=
  match job_title, o with
  | _, .netError => .ok []
  | _, .response status body =>
    if 400 ≤ status ∧ status < 600 then .ok []
    else
      match body with
      | .nonJson => .ok []
      | .json data =>
        match data with
        | .obj kvs =>
          match jget kvs "jobs" with
          | some (.arr jobs) => jobs.mapM normalizeJob
          | _ => .ok []
        | _ => .error .attributeError

/-! ## `app.py` — `/submit` -/

/-- Default whitespace stripped by Python `str.strip()` (ASCII part:
space, tab, newline, carriage return, vertical tab, form feed). -/
def isPySpace (c : Char) : Bool :=
  c == ' ' || c == '\t' || c == '\n' || c == '\r' || c.toNat == 11 || c.toNat == 12

/-- Python `s.strip()`: drop leading and trailing whitespace. -/
def pystrip (s : String) : String :=
  ⟨((s.data.dropWhile isPySpace).reverse.dropWhile isPySpace).reverse⟩

/-- `request.form.get(k, dflt)`: first value bound to `k`, else default. -/
def pyFormGet (form : List (String × String)) (k dflt : String) : String :=
  match form with
  | [] => dflt
  | (k', v) :: rest => if k' = k then v else pyFormGet rest k dflt

/-- What the `/submit` handler passes to
`render_template('result.html', results=..., search_query=...)`, plus the
trace of arguments with which `get_jobs` was invoked. -/
structure SubmitResult where
  results : List JobListing
  search_query : String
  calls : List String
deriving DecidableEq, Repr

/-- The `/submit` route handler.  `search` abstracts `api_client.get_jobs`
(its exceptional path is out of scope here and charged to `get_jobs`
itself); `calls` records each invocation of `search`.  The source computes
`job_title = request.form.get('jobTitle', '').strip()` and then
`jobs = get_jobs(job_title) if job_title else []`. -/
def submit (form : List (String × String)) (search : String → List JobListing) :
    SubmitResult :=
  let job_title := pystrip (pyFormGet form "jobTitle" "")
  if job_title = "" then
    { results := [], search_query := job_title, calls := [] }
  else
    { results := search job_title, search_query := job_title, calls := [job_title] }

/-! ## `database.py` — the application store -/

/-- The MongoDB collection holding application documents, together with the
counter from which the model draws fresh ObjectIds. -/
structure MongoState where
  docs : List Doc
  nextOid : Nat

/-- `collection.insert_one(d)`: stores the document and returns its
`inserted_id`.  When the caller's document carries no `_id`, the store
assigns a fresh ObjectId (placed first in the stored document, as the
server does); a caller-supplied `_id` is kept as given. -/
def insert_one (s : MongoState) (d : Doc) : JValue × MongoState :=
  match jget d "_id" with
  | some v => (v, { s with docs := s.docs ++ [d] })
  | none =>
    (.oid s.nextOid,
     { docs := s.docs ++ [("_id", .oid s.nextOid) :: d], nextOid := s.nextOid + 1 })

/-- `database.add_application(application_data)` (the one-argument function
of `database.py`, operating on the module-global collection): inserts the
document and returns `str(result.inserted_id)`. -/
def add_application (application_data : Doc) (s : MongoState) : String × MongoState :=
  let r := insert_one s application_data
  (pyStr r.1, r.2)

/-- `database.get_all_applications()`: every stored document with its `_id`
replaced by `str(doc["_id"])`.  (The source indexes `doc["_id"]` directly;
every document stored through `insert_one` carries an `_id`, so the `getD`
default is unreachable on the states the code builds.) -/
def get_all_applications (s : MongoState) : List Doc :=
  s.docs.map (fun d => setK d "_id" (.str (pyStr ((jget d "_id").getD .null))))

/-- Well-formedness of a collection state: every stored document carries a
store-assigned ObjectId below the freshness counter.  Holds for every state
reachable through `insert_one` on id-less documents. -/
def MongoWF (s : MongoState) : Prop :=
  ∀ d ∈ s.docs, ∃ m, jget d "_id" = some (.oid m) ∧ m < s.nextOid

/-! ## Store operations that `app.py` imports from the database module but
whose definitions are not among the sources -/

/-- Modelled from the spec: the two-argument `add_application(coll, payload)`
that `app.py` calls is not defined in the `database.py` among the sources
(which has a one-argument version); per spec §4.2, `create` "inserts a new
document; store assigns the id; returns it", and the call site comments
"should return inserted_id". -/
def add_application2 (s : MongoState) (payload : Doc) : JValue × MongoState :=
  insert_one s payload

/-- Modelled from the spec: `update_application_status(coll, id, status)` is
imported by `app.py` from the database module but is not defined in the
`database.py` among the sources.  Per spec §4.2, `update_status` "sets
`status` field on the record with matching id; returns whether a record was
found and modified; fails with NotFound semantics (boolean false) rather
than raising, if no match" — i.e. `update_one({_id: id}, {$set: {status}})`
on the first matching document. -/
def setStatusFirst (docs : List Doc) (id : Nat) (v : JValue) : Bool × List Doc :=
  match docs with
  | [] => (false, [])
  | d :: rest =>
    match jget d "_id" with
    | some (.oid m) =>
      if m = id then (true, setK d "status" v :: rest)
      else
        let r := setStatusFirst rest id v
        (r.1, d :: r.2)
    | _ =>
      let r := setStatusFirst rest id v
      (r.1, d :: r.2)

/-- Modelled from the spec: see `setStatusFirst`. -/
def update_application_status (s : MongoState) (id : Nat) (v : JValue) :
    Bool × MongoState :=
  let r := setStatusFirst s.docs id v
  (r.1, { s with docs := r.2 })

/-! ## `app.py` — the JSON API handlers -/

/-- An HTTP response as produced by `jsonify(...)` (with status code). -/
structure HttpResp where
  code : Nat
  body : JValue

/-- `POST /api/applications` (`api_add_app`).  `data = request.get_json(
force=True) or {}` (a falsy parse result becomes the empty dict); building
the payload by `data.get(...)` raises `AttributeError` when `data` is a
truthy non-object; `connect()` (imported from the database module, not among
the sources) yields the shared collection, modelled by the threaded state;
`payload["_id"] = str(new_id)` appends the id string to the response
payload.  `apiPayload` is the dict literal `payload = {...}` built from
`data.get(...)` in the handler. -/
def apiPayload (kvs : List (String × JValue)) : Doc :=
  [("company", (jget kvs "company").getD .null),
   ("title", (jget kvs "title").getD .null),
   ("url", (jget kvs "url").getD .null),
   ("status", (jget kvs "status").getD (.str "wishlist")),
   ("date", (jget kvs "date").getD .null)]

def api_add_app (body : JValue) (s : MongoState) :
    Except PyErr HttpResp × MongoState :=
  let data := if pyTruthy body then body else JValue.obj []
  match data with
  | .obj kvs =>
    let payload := apiPayload kvs
    let r := add_application2 s payload
    (.ok { code := 201, body := .obj (setK payload "_id" (.str (pyStr r.1))) }, r.2)
  | _ => (.error .attributeError, s)

/-- `PATCH /api/applications/<id>` (`api_update_status`).  Same body
handling as `api_add_app`; a falsy `status` is rejected with a 400 before
any store access; `ObjectId(id)` raises `InvalidId` on an unparseable id
(modelled by `parseObjectId`); otherwise the status update runs and the
handler answers `{"ok": bool(ok)}`. -/
def api_update_status (id : String) (body : JValue) (s : MongoState) :
    Except PyErr HttpResp × MongoState :=
  let data := if pyTruthy body then body else JValue.obj []
  match data with
  | .obj kvs =>
    let status := (jget kvs "status").getD .null
    if !pyTruthy status then
      (.ok { code := 400, body := .obj [("error", .str "status required")] }, s)
    else
      match parseObjectId id with
      | none => (.error .invalidId, s)
      | some n =>
        let r := update_application_status s n status
        (.ok { code := 200, body := .obj [("ok", .bool r.1)] }, r.2)
  | _ => (.error .attributeError, s)

/-! ## Auxiliary lemmas -/

/-- The fuel argument is irrelevant as long as it exceeds the number. -/
theorem natCharsRevFuel_stable :
    ∀ f₁ f₂ n : Nat, n < f₁ → n < f₂ → natCharsRevFuel f₁ n = natCharsRevFuel f₂ n := by
  intro f₁
  induction f₁ with
  | zero => intro f₂ n h1 _; omega
  | succ f ih =>
    intro f₂ n h1 h2
    match f₂, h2 with
    | f₂' + 1, _ =>
      show (if n < 10 then [digitChar n]
            else digitChar (n % 10) :: natCharsRevFuel f (n / 10))
          = (if n < 10 then [digitChar n]
            else digitChar (n % 10) :: natCharsRevFuel f₂' (n / 10))
      by_cases h : n < 10
      · simp [h]
      · have hlt : n / 10 < n := Nat.div_lt_self (by omega) (by omega)
        simp only [h, if_neg, if_false]
        rw [ih f₂' (n / 10) (by omega) (by omega)]

/-- `digitChar` is injective below 10. -/
theorem digitChar_inj : ∀ a < 10, ∀ b < 10, digitChar a = digitChar b → a = b := by
  decide

theorem natCharsRev_ne_nil (n : Nat) : natCharsRev n ≠ [] := by
  rw [natCharsRev]
  show (if n < 10 then [digitChar n]
        else digitChar (n % 10) :: natCharsRevFuel n (n / 10)) ≠ []
  split <;> simp

theorem natCharsRev_lt {n : Nat} (h : n < 10) : natCharsRev n = [digitChar n] := by
  rw [natCharsRev]
  show (if n < 10 then [digitChar n]
        else digitChar (n % 10) :: natCharsRevFuel n (n / 10)) = [digitChar n]
  simp [h]

theorem natCharsRev_ge {n : Nat} (h : ¬ n < 10) :
    natCharsRev n = digitChar (n % 10) :: natCharsRev (n / 10) := by
  rw [natCharsRev]
  show (if n < 10 then [digitChar n]
        else digitChar (n % 10) :: natCharsRevFuel n (n / 10))
      = digitChar (n % 10) :: natCharsRev (n / 10)
  rw [if_neg h, natCharsRev,
    natCharsRevFuel_stable n (n / 10 + 1) (n / 10)
      (Nat.div_lt_self (by omega) (by omega)) (by omega)]

/-- The decimal digit rendering is injective. -/
theorem natCharsRev_inj : ∀ a b : Nat, natCharsRev a = natCharsRev b → a = b := by
  intro a
  induction a using Nat.strong_induction_on with
  | _ a ih =>
    intro b h
    by_cases ha : a < 10 <;> by_cases hb : b < 10
    · rw [natCharsRev_lt ha, natCharsRev_lt hb] at h
      exact digitChar_inj a ha b hb (by simpa using h)
    · rw [natCharsRev_lt ha, natCharsRev_ge hb] at h
      exact absurd (List.cons.injEq .. ▸ h).2.symm (natCharsRev_ne_nil (b / 10))
    · rw [natCharsRev_ge ha, natCharsRev_lt hb] at h
      exact absurd (List.cons.injEq .. ▸ h).2 (natCharsRev_ne_nil (a / 10))
    · rw [natCharsRev_ge ha, natCharsRev_ge hb] at h
      have h1 := (List.cons.injEq .. ▸ h).1
      have h2 := (List.cons.injEq .. ▸ h).2
      have hm : a % 10 = b % 10 :=
        digitChar_inj _ (Nat.mod_lt a (by omega)) _ (Nat.mod_lt b (by omega)) h1
      have hd : a / 10 = b / 10 :=
        ih (a / 10) (Nat.div_lt_self (by omega) (by omega)) (b / 10) h2
      omega

/-- The ObjectId rendering is injective: distinct ids have distinct strings. -/
theorem oidStr_inj : ∀ a b : Nat, oidStr a = oidStr b → a = b := by
  intro a b h
  apply natCharsRev_inj
  have hd : ('o' :: 'i' :: 'd' :: (natCharsRev a).reverse)
      = ('o' :: 'i' :: 'd' :: (natCharsRev b).reverse) := congrArg String.data h
  have : (natCharsRev a).reverse = (natCharsRev b).reverse := by
    simpa using hd
  exact List.reverse_injective this

theorem jget_setK_self : ∀ (d : Doc) (k : String) (v : JValue),
    jget (setK d k v) k = some v := by
  intro d k v
  induction d with
  | nil => simp [setK, jget]
  | cons p rest ih =>
    by_cases h : p.1 = k
    · simp [setK, jget, h]
    · simp [setK, jget, h, ih]

theorem setStatusFirst_not_found :
    ∀ (docs : List Doc) (id : Nat) (v : JValue),
    (∀ d ∈ docs, jget d "_id" ≠ some (.oid id)) →
    setStatusFirst docs id v = (false, docs) := by
  intro docs id v h
  induction docs with
  | nil => rfl
  | cons d rest ih =>
    have hd := h d (List.mem_cons_self d rest)
    have hrest := ih (fun d' hd' => h d' (List.mem_cons_of_mem d hd'))
    rw [setStatusFirst]
    match hj : jget d "_id" with
    | some (.oid m) =>
      have hne : m ≠ id := fun he => hd (he ▸ hj)
      simp [hne, hrest]
    | some .null | some (.bool _) | some (.num _) | some (.str _)
    | some (.arr _) | some (.obj _) | none => simp [hrest]

theorem setStatusFirst_found :
    ∀ (pre : List Doc) (d : Doc) (post : List Doc) (id : Nat) (v : JValue),
    (∀ d' ∈ pre, jget d' "_id" ≠ some (.oid id)) →
    jget d "_id" = some (.oid id) →
    setStatusFirst (pre ++ d :: post) id v = (true, pre ++ setK d "status" v :: post) := by
  intro pre
  induction pre with
  | nil =>
    intro d post id v _ hd
    rw [List.nil_append, setStatusFirst, hd]
    simp
  | cons p pre' ih =>
    intro d post id v hpre hd
    have hp := hpre p (List.mem_cons_self p pre')
    have h' := ih d post id v (fun d' hd' => hpre d' (List.mem_cons_of_mem p hd')) hd
    rw [List.cons_append, setStatusFirst]
    match hj : jget p "_id" with
    | some (.oid m) =>
      have hne : m ≠ id := fun he => hp (he ▸ hj)
      simp [hne, h']
    | some .null | some (.bool _) | some (.num _) | some (.str _)
    | some (.arr _) | some (.obj _) | none => simp [h']

theorem mapM_normalizeJob_index :
    ∀ (jobs : List JValue) (rs : List JobListing),
    jobs.mapM normalizeJob = .ok rs →
    ∀ (i : Nat) (j : JValue) (r : JobListing),
    jobs[i]? = some j → normalizeJob j = .ok r → rs[i]? = some r := by
  intro jobs
  induction jobs with
  | nil =>
    intro rs _ i j r hj _
    simp at hj
  | cons a t ih =>
    intro rs hm i j r hj hr
    rw [List.mapM_cons] at hm
    match ha : normalizeJob a with
    | .error e => rw [ha] at hm; exact absurd hm (by simp [Bind.bind, Except.bind])
    | .ok r0 =>
      rw [ha] at hm
      match ht : t.mapM normalizeJob with
      | .error e =>
        rw [ht] at hm
        exact absurd hm (by simp [Bind.bind, Except.bind, Pure.pure, Except.pure])
      | .ok rs' =>
        rw [ht] at hm
        have : rs = r0 :: rs' := by
          simpa [Bind.bind, Except.bind, Pure.pure, Except.pure] using hm.symm
        subst this
        match i with
        | 0 =>
          simp only [List.getElem?_cons_zero, Option.some.injEq] at hj ⊢
          subst hj
          rw [ha] at hr
          exact (Except.ok.injEq .. ▸ hr)
        | i + 1 =>
          simp only [List.getElem?_cons_succ] at hj ⊢
          exact ih rs' ht i j r hj hr

theorem mapM_normalizeJob_total :
    ∀ (jobs : List JValue), (∀ j ∈ jobs, ∃ o, j = .obj o) →
    ∃ rs : List JobListing, jobs.mapM normalizeJob = .ok rs := by
  intro jobs
  induction jobs with
  | nil => exact fun _ => ⟨[], rfl⟩
  | cons a t ih =>
    intro h
    obtain ⟨o, rfl⟩ := h a (List.mem_cons_self a t)
    obtain ⟨rs, hrs⟩ := ih (fun j hj => h j (List.mem_cons_of_mem _ hj))
    refine ⟨{ title := pyStr ((jget o "title").getD (.str "N/A")),
              company := pyStr ((jget o "company").getD (.str "")),
              location := pyStr ((jget o "location").getD (.str "")),
              link := pyStr ((jget o "link").getD (.str "")) } :: rs, ?_⟩
    rw [List.mapM_cons, hrs]
    rfl

theorem pystrip_of_all_space {s : String}
    (h : ∀ c ∈ s.data, isPySpace c = true) : pystrip s = "" := by
  unfold pystrip
  rw [List.dropWhile_eq_nil_iff.mpr h]
  rfl

/-! ## Claim theorems -/

/-- C5 (counterexample): the claim "get_jobs never raises; on network
failure, non-2xx status, or non-JSON body it returns an empty sequence" is
false as stated: a 300 (non-2xx) response with a JSON jobs list is processed
normally and yields a non-empty result, and a 200 JSON response whose jobs
list contains a non-object makes `get_jobs` raise `AttributeError`. -/
theorem get_jobs_claim_cex :
    get_jobs "q" (.response 300 (.json (.obj [("jobs", .arr [.obj []])]))) ≠ .ok []
    ∧ get_jobs "q" (.response 200 (.json (.obj [("jobs", .arr [.num 5])])))
      = .error .attributeError := by
  constructor
  · intro h
    rw [show get_jobs "q" (.response 300 (.json (.obj [("jobs", .arr [.obj []])])))
        = .ok [{ title := "N/A", company := "", location := "", link := "" }] from rfl] at h
    simp at h
  · rfl

/-- C5 (amended): `get_jobs` returns the empty sequence on network failure,
on a 4xx or 5xx status, and on a non-JSON body; and it raises no exception
provided the JSON body is an object all of whose `jobs`-list elements (if
the `jobs` field is a list) are objects. -/
theorem get_jobs_failure_empty_no_raise :
    (∀ q, get_jobs q .netError = .ok [])
    ∧ (∀ q st b, 400 ≤ st → st < 600 → get_jobs q (.response st b) = .ok [])
    ∧ (∀ q st, get_jobs q (.response st .nonJson) = .ok [])
    ∧ (∀ q st kvs,
        (∀ l, jget kvs "jobs" = some (.arr l) → ∀ j ∈ l, ∃ o, j = .obj o) →
        ∃ rs, get_jobs q (.response st (.json (.obj kvs))) = .ok rs) := by
  refine ⟨fun _ => rfl, ?_, ?_, ?_⟩
  · intro q st b h1 h2
    show (if 400 ≤ st ∧ st < 600 then Except.ok [] else _) = .ok []
    rw [if_pos ⟨h1, h2⟩]
  · intro q st
    show (if 400 ≤ st ∧ st < 600 then Except.ok [] else Except.ok []) = .ok []
    split <;> rfl
  · intro q st kvs h
    by_cases hst : 400 ≤ st ∧ st < 600
    · refine ⟨[], ?_⟩
      show (if 400 ≤ st ∧ st < 600 then Except.ok [] else _) = .ok []
      rw [if_pos hst]
    · have hred : get_jobs q (.response st (.json (.obj kvs)))
          = (match jget kvs "jobs" with
             | some (.arr jobs) => jobs.mapM normalizeJob
             | _ => .ok []) := by
        show (if 400 ≤ st ∧ st < 600 then Except.ok [] else _) = _
        rw [if_neg hst]
      rw [hred]
      match hj : jget kvs "jobs" with
      | some (.arr l) => exact mapM_normalizeJob_total l (h l hj)
      | some .null | some (.bool _) | some (.num _) | some (.str _)
      | some (.oid _) | some (.obj _) | none => exact ⟨[], rfl⟩

/-- C5 (witness): a 503 non-JSON response yields the empty list. -/
theorem get_jobs_failure_empty_no_raise_witness :
    get_jobs "python" (.response 503 .nonJson) = .ok [] :=
  get_jobs_failure_empty_no_raise.2.1 "python" 503 .nonJson (by omega) (by omega)

/-- C6: every listing object in the jobs list is normalized independently
(whenever the loop completes, the i-th output is determined by the i-th
listing alone) and without raising; missing `title` defaults to "N/A",
missing `company`/`location`/`link` default to "", extra fields are dropped
(the result carries exactly the four keys), and every value is coerced with
`str`. -/
theorem normalizeJob_listing_object_spec :
    ∀ (jobs : List JValue) (i : Nat) (kvs : List (String × JValue)),
    jobs[i]? = some (.obj kvs) →
    ∃ r : JobListing,
      normalizeJob (.obj kvs) = .ok r
      ∧ (∀ rs, jobs.mapM normalizeJob = .ok rs → rs[i]? = some r)
      ∧ (jget kvs "title" = none → r.title = "N/A")
      ∧ (jget kvs "company" = none → r.company = "")
      ∧ (jget kvs "location" = none → r.location = "")
      ∧ (jget kvs "link" = none → r.link = "")
      ∧ r.title = pyStr ((jget kvs "title").getD (.str "N/A"))
      ∧ r.company = pyStr ((jget kvs "company").getD (.str ""))
      ∧ r.location = pyStr ((jget kvs "location").getD (.str ""))
      ∧ r.link = pyStr ((jget kvs "link").getD (.str "")) := by
  intro jobs i kvs hi
  refine ⟨{ title := pyStr ((jget kvs "title").getD (.str "N/A")),
            company := pyStr ((jget kvs "company").getD (.str "")),
            location := pyStr ((jget kvs "location").getD (.str "")),
            link := pyStr ((jget kvs "link").getD (.str "")) },
    rfl, ?_, ?_, ?_, ?_, ?_, rfl, rfl, rfl, rfl⟩
  · intro rs hrs
    exact mapM_normalizeJob_index jobs rs hrs i (.obj kvs) _ hi rfl
  · intro h; rw [h]; rfl
  · intro h; rw [h]; rfl
  · intro h; rw [h]; rfl
  · intro h; rw [h]; rfl

/-- C6 (witness): a listing with a numeric title and no other fields is
normalized to its string coercion plus defaults. -/
theorem normalizeJob_listing_object_spec_witness :
    (normalizeJob (.obj [("title", .num 7)])).toOption.map JobListing.title
      = some "7" := by
  obtain ⟨r, h1, _, _, _, _, _, h7, _, _, _⟩ :=
    normalizeJob_listing_object_spec [.obj [("title", .num 7)]] 0 [("title", .num 7)] rfl
  rw [h1]
  show some r.title = some "7"
  rw [h7]
  rfl

/-- C8 (counterexample): the claim promises the empty sequence whenever the
top-level `jobs` field is absent, but on a JSON body that is not an object
(here a 200 response whose body is the JSON array `[]`, which has no `jobs`
field) `data.get("jobs")` raises `AttributeError` instead. -/
theorem get_jobs_no_jobs_field_cex :
    get_jobs "q" (.response 200 (.json (.arr []))) = .error .attributeError := rfl

/-- C8 (amended): for every JSON object response body in which the `jobs`
field is absent or its value is not a sequence, `get_jobs` returns the
empty sequence (a non-object JSON body raises instead, see the
counterexample). -/
theorem get_jobs_no_jobs_field_empty :
    ∀ (q : String) (st : Nat) (kvs : List (String × JValue)),
    (jget kvs "jobs" = none ∨ ∃ v, jget kvs "jobs" = some v ∧ ∀ l, v ≠ .arr l) →
    get_jobs q (.response st (.json (.obj kvs))) = .ok [] := by
  intro q st kvs h
  by_cases hst : 400 ≤ st ∧ st < 600
  · show (if 400 ≤ st ∧ st < 600 then Except.ok [] else _) = .ok []
    rw [if_pos hst]
  · have hred : get_jobs q (.response st (.json (.obj kvs)))
        = (match jget kvs "jobs" with
           | some (.arr jobs) => jobs.mapM normalizeJob
           | _ => .ok []) := by
      show (if 400 ≤ st ∧ st < 600 then Except.ok [] else _) = _
      rw [if_neg hst]
    rw [hred]
    rcases h with h | ⟨v, hv, hne⟩
    · rw [h]
    · rw [hv]
      match v, hne with
      | .null, _ | .bool _, _ | .num _, _ | .str _, _ | .oid _, _ | .obj _, _ => rfl
      | .arr l, hne => exact absurd rfl (hne l)

/-- C8 (witness): a 200 JSON object body with a non-list `jobs` value
yields the empty list. -/
theorem get_jobs_no_jobs_field_empty_witness :
    get_jobs "q" (.response 200 (.json (.obj [("jobs", .str "no")]))) = .ok [] :=
  get_jobs_no_jobs_field_empty "q" 200 [("jobs", .str "no")]
    (Or.inr ⟨.str "no", rfl, fun l h => by cases h⟩)

/-- C7: an empty or whitespace-only `jobTitle` form value (including an
absent field, which defaults to the empty string) short-circuits `/submit`:
`get_jobs` is never invoked and the rendered results are empty. -/
theorem submit_blank_no_search (form : List (String × String))
    (search : String → List JobListing)
    (h : ∀ c ∈ (pyFormGet form "jobTitle" "").data, isPySpace c = true) :
    (submit form search).calls = [] ∧ (submit form search).results = [] := by
  unfold submit
  rw [pystrip_of_all_space h]
  exact ⟨rfl, rfl⟩

/-- C7 (witness): a whitespace-only submission triggers no search. -/
theorem submit_blank_no_search_witness :
    (submit [("jobTitle", "  ")] (fun _ => [])).calls = []
    ∧ (submit [("jobTitle", "  ")] (fun _ => [])).results = [] :=
  submit_blank_no_search [("jobTitle", "  ")] (fun _ => []) (by decide)

/-- C9 (counterexample): the claim "calls the Job Search Client and renders
the results page with the original submitted query echoed back unchanged" is
false as stated: the handler echoes the stripped query (here "x" for the
submission " x "), and for a whitespace-only submission it does not call the
client at all. -/
theorem submit_echo_cex :
    (submit [("jobTitle", " x ")] (fun _ => [])).search_query ≠ " x "
    ∧ (submit [("jobTitle", " ")] (fun _ => [])).calls = [] := by
  constructor
  · decide
  · decide

/-- C9 (amended): `/submit` echoes back the submitted query stripped of
leading and trailing whitespace, and calls the Job Search Client exactly
when the stripped query is non-empty — once, with the stripped query,
rendering its results (and empty results otherwise). -/
theorem submit_echoes_stripped (form : List (String × String))
    (search : String → List JobListing) :
    (submit form search).search_query = pystrip (pyFormGet form "jobTitle" "")
    ∧ ((submit form search).search_query ≠ "" →
        (submit form search).calls = [(submit form search).search_query]
        ∧ (submit form search).results = search (submit form search).search_query)
    ∧ ((submit form search).search_query = "" →
        (submit form search).calls = [] ∧ (submit form search).results = []) := by
  unfold submit
  by_cases h : pystrip (pyFormGet form "jobTitle" "") = ""
  · rw [if_pos h]
    exact ⟨h.symm ▸ rfl, fun hne => absurd h hne, fun _ => ⟨rfl, rfl⟩⟩
  · rw [if_neg h]
    exact ⟨rfl, fun _ => ⟨rfl, rfl⟩, fun he => absurd he h⟩

/-- C9 (witness): for the submission " dev " the client is called once with
the stripped query, which is also the echoed query. -/
theorem submit_echoes_stripped_witness :
    (submit [("jobTitle", " dev ")] (fun _ => [])).calls
      = [(submit [("jobTitle", " dev ")] (fun _ => [])).search_query] :=
  ((submit_echoes_stripped [("jobTitle", " dev ")] (fun _ => [])).2.1 (by decide)).1

/-- C1: on a well-formed store, `add_application` with a partial application
record (no caller-supplied `_id`) inserts one new document, the store assigns
the id, and the returned value is the string rendering of the inserted
document's ObjectId; a subsequent `get_all_applications` contains a record
with that id string whose every other field agrees with the input, and no
record of the prior store carries that id. -/
theorem add_application_create_then_list (data : Doc) (s : MongoState)
    (hwf : MongoWF s) (hid : jget data "_id" = none) :
    (add_application data s).1 = oidStr s.nextOid
    ∧ (add_application data s).2.docs = s.docs ++ [("_id", .oid s.nextOid) :: data]
    ∧ (∃ d ∈ get_all_applications (add_application data s).2,
        jget d "_id" = some (.str (oidStr s.nextOid))
        ∧ ∀ k, k ≠ "_id" → jget d k = jget data k)
    ∧ ∀ d ∈ get_all_applications s, jget d "_id" ≠ some (.str (oidStr s.nextOid)) := by
  have hadd : add_application data s
      = (oidStr s.nextOid,
         { docs := s.docs ++ [("_id", .oid s.nextOid) :: data],
           nextOid := s.nextOid + 1 }) := by
    unfold add_application insert_one
    rw [hid]
    rfl
  refine ⟨by rw [hadd], by rw [hadd], ?_, ?_⟩
  · refine ⟨("_id", .str (oidStr s.nextOid)) :: data, ?_, ?_, ?_⟩
    · rw [hadd]
      unfold get_all_applications
      simp only [List.map_append, List.map_cons, List.map_nil]
      apply List.mem_append_right
      apply List.mem_cons_self
    · show (if "_id" = "_id" then some (JValue.str (oidStr s.nextOid)) else jget data "_id")
          = some (.str (oidStr s.nextOid))
      rw [if_pos rfl]
    · intro k hk
      show (if "_id" = k then some (JValue.str (oidStr s.nextOid)) else jget data k)
          = jget data k
      rw [if_neg (fun he => hk he.symm)]
  · intro d hd heq
    unfold get_all_applications at hd
    obtain ⟨d0, hd0, rfl⟩ := List.mem_map.mp hd
    obtain ⟨m, hm, hlt⟩ := hwf d0 hd0
    rw [jget_setK_self] at heq
    rw [hm] at heq
    have : oidStr m = oidStr s.nextOid := by
      have := (Option.some.injEq .. ▸ heq)
      exact (JValue.str.injEq .. ▸ this)
    have := oidStr_inj m s.nextOid this
    omega

/-- C1 (witness): creating a record in the empty store returns the string of
ObjectId 0 and stores the record under that id. -/
theorem add_application_create_then_list_witness :
    (add_application [("title", .str "Engineer")] ⟨[], 0⟩).1 = oidStr 0
    ∧ (add_application [("title", .str "Engineer")] ⟨[], 0⟩).2.docs
      = [[("_id", .oid 0), ("title", .str "Engineer")]] := by
  have h := add_application_create_then_list [("title", .str "Engineer")] ⟨[], 0⟩
    (fun d hd => absurd hd (List.not_mem_nil d)) rfl
  exact ⟨h.1, by rw [h.2.1]; rfl⟩

/-- C2: `update_application_status` (modelled from the spec; see its doc
comment) returns a boolean saying whether a record with the given id was
found: on an unknown id it returns `false` and leaves every record
unchanged (and, being a total function, raises nothing); on a known id it
returns `true` and sets the `status` field of the first record with the
matching id, leaving all other records unchanged. -/
theorem update_application_status_spec (s : MongoState) (id : Nat) (v : JValue) :
    ((∀ d ∈ s.docs, jget d "_id" ≠ some (.oid id)) →
      update_application_status s id v = (false, s))
    ∧ (∀ pre d post, s.docs = pre ++ d :: post →
        (∀ d' ∈ pre, jget d' "_id" ≠ some (.oid id)) →
        jget d "_id" = some (.oid id) →
        update_application_status s id v
          = (true, { s with docs := pre ++ setK d "status" v :: post })) := by
  constructor
  · intro h
    unfold update_application_status
    rw [setStatusFirst_not_found s.docs id v h]
  · intro pre d post hdocs hpre hd
    unfold update_application_status
    rw [hdocs, setStatusFirst_found pre d post id v hpre hd]

/-- C2 (witness): in a one-record store, updating the stored id sets its
status and reports `true`; updating an unknown id reports `false` and
changes nothing. -/
theorem update_application_status_spec_witness :
    update_application_status
        ⟨[[("_id", .oid 0), ("status", .str "applied")]], 1⟩ 0 (.str "interview")
      = (true, ⟨[[("_id", .oid 0), ("status", .str "interview")]], 1⟩)
    ∧ update_application_status
        ⟨[[("_id", .oid 0), ("status", .str "applied")]], 1⟩ 5 (.str "x")
      = (false, ⟨[[("_id", .oid 0), ("status", .str "applied")]], 1⟩) := by
  constructor
  · have h := (update_application_status_spec
        ⟨[[("_id", .oid 0), ("status", .str "applied")]], 1⟩ 0 (.str "interview")).2
      [] [("_id", .oid 0), ("status", .str "applied")] [] rfl
      (fun d' hd' => absurd hd' (List.not_mem_nil d')) rfl
    rw [h]
    rfl
  · exact (update_application_status_spec
        ⟨[[("_id", .oid 0), ("status", .str "applied")]], 1⟩ 5 (.str "x")).1
      (by intro d hd
          rw [List.mem_singleton] at hd
          subst hd
          intro hc
          rw [show jget [("_id", JValue.oid 0), ("status", JValue.str "applied")] "_id"
              = some (.oid 0) from rfl] at hc
          simp at hc)

/-- C3 (counterexample): the claim "otherwise it performs the update and
responds with ok" is false as stated: with a present, non-empty status but
an id that is not a valid ObjectId string, `ObjectId(id)` raises `InvalidId`
(no `{ok: bool}` response); and a truthy non-object JSON body makes
`data.get("status")` raise `AttributeError` rather than answer 400. -/
theorem api_update_status_cex :
    api_update_status "x" (.obj [("status", .str "applied")]) ⟨[], 0⟩
      = (.error .invalidId, ⟨[], 0⟩)
    ∧ api_update_status "oid0" (.str "boom") ⟨[], 0⟩
      = (.error .attributeError, ⟨[], 0⟩) :=
  ⟨rfl, rfl⟩

/-- C3 (amended): for a PATCH whose JSON body is an object (or falsy, read
as the empty object) and whose `status` field is a string or absent: when
the status is absent or empty the handler answers 400 with an error message
and performs no store mutation; when the status is a non-empty string and
the id is a valid ObjectId string the handler performs the update and
answers `{ok: bool}` reporting whether a record was matched; an invalid id
raises `InvalidId` instead (and also performs no mutation). -/
theorem api_update_status_spec :
    (∀ (id : String) (kvs : List (String × JValue)) (s : MongoState),
      (jget kvs "status" = none ∨ jget kvs "status" = some (.str "")) →
      api_update_status id (.obj kvs) s
        = (.ok ⟨400, .obj [("error", .str "status required")]⟩, s))
    ∧ (∀ (id : String) (kvs : List (String × JValue)) (s : MongoState) (t : String)
        (n : Nat), jget kvs "status" = some (.str t) → t ≠ "" →
        parseObjectId id = some n →
        api_update_status id (.obj kvs) s
          = (.ok ⟨200, .obj [("ok", .bool (update_application_status s n (.str t)).1)]⟩,
             (update_application_status s n (.str t)).2))
    ∧ (∀ (id : String) (kvs : List (String × JValue)) (s : MongoState) (t : String),
        jget kvs "status" = some (.str t) → t ≠ "" → parseObjectId id = none →
        api_update_status id (.obj kvs) s = (.error .invalidId, s)) := by
  refine ⟨?_, ?_, ?_⟩
  · intro id kvs s h
    cases kvs with
    | nil => rfl
    | cons p rest =>
      rcases h with h | h <;>
        simp [api_update_status, pyTruthy, h]
  · intro id kvs s t n ht hne hp
    cases kvs with
    | nil => simp [jget] at ht
    | cons p rest =>
      have hb : (t == "") = false := beq_eq_false_iff_ne.mpr hne
      simp [api_update_status, pyTruthy, ht, hb, hp]
  · intro id kvs s t ht hne hp
    cases kvs with
    | nil => simp [jget] at ht
    | cons p rest =>
      have hb : (t == "") = false := beq_eq_false_iff_ne.mpr hne
      simp [api_update_status, pyTruthy, ht, hb, hp]

/-- C3 (witness): a body without a status field gets a 400 and leaves the
store untouched; a valid id with a non-empty status gets `{ok: false}` on
the empty store. -/
theorem api_update_status_spec_witness :
    api_update_status "oid0" (.obj []) ⟨[], 0⟩
      = (.ok ⟨400, .obj [("error", .str "status required")]⟩, ⟨[], 0⟩)
    ∧ api_update_status "oid0" (.obj [("status", .str "applied")]) ⟨[], 0⟩
      = (.ok ⟨200, .obj [("ok", .bool false)]⟩, ⟨[], 0⟩) := by
  constructor
  · exact api_update_status_spec.1 "oid0" [] ⟨[], 0⟩ (Or.inl rfl)
  · have h := api_update_status_spec.2.1 "oid0" [("status", .str "applied")] ⟨[], 0⟩
      "applied" 0 rfl (by decide) (by decide)
    rw [h]
    rfl

/-- C4 (counterexample): the claim quantifies over every JSON body, but a
truthy non-object body (here the JSON array `[1]`) makes `data.get` raise
`AttributeError` — no 201 response, nothing created. -/
theorem api_add_app_cex :
    api_add_app (.arr [.num 1]) ⟨[], 0⟩ = (.error .attributeError, ⟨[], 0⟩) := rfl

/-- C4 (amended): for every JSON body that parses to an object (a falsy
body is read as the empty object; a truthy non-object raises, see the
counterexample), the handler builds the application from the fields
company, title, url, status, date — status defaulting to "wishlist" when
the key is absent — stores it under a store-assigned ObjectId, and answers
201 with the created record carrying the id serialized as a string. -/
theorem api_add_app_spec (kvs : List (String × JValue)) (s : MongoState) :
    api_add_app (.obj kvs) s
      = (.ok ⟨201, .obj
          [("company", (jget kvs "company").getD .null),
           ("title", (jget kvs "title").getD .null),
           ("url", (jget kvs "url").getD .null),
           ("status", (jget kvs "status").getD (.str "wishlist")),
           ("date", (jget kvs "date").getD .null),
           ("_id", .str (oidStr s.nextOid))]⟩,
         { docs := s.docs ++
             [[("_id", .oid s.nextOid),
               ("company", (jget kvs "company").getD .null),
               ("title", (jget kvs "title").getD .null),
               ("url", (jget kvs "url").getD .null),
               ("status", (jget kvs "status").getD (.str "wishlist")),
               ("date", (jget kvs "date").getD .null)]],
           nextOid := s.nextOid + 1 }) := by
  rcases kvs with _ | ⟨p, rest⟩ <;> rfl

/-- C4 (witness): posting a body with only a company yields 201, the
wishlist default, and the id string of the assigned ObjectId. -/
theorem api_add_app_spec_witness :
    api_add_app (.obj [("company", .str "Acme")]) ⟨[], 0⟩
      = (.ok ⟨201, .obj
          [("company", .str "Acme"), ("title", .null), ("url", .null),
           ("status", .str "wishlist"), ("date", .null), ("_id", .str "oid0")]⟩,
         ⟨[[("_id", .oid 0), ("company", .str "Acme"), ("title", .null),
            ("url", .null), ("status", .str "wishlist"), ("date", .null)]], 1⟩) := by
  rw [api_add_app_spec [("company", .str "Acme")] ⟨[], 0⟩]
  rfl

/-- C10 (counterexample): the claim asserts that for every JSON body a
payload with exactly the five fixed keys is handed to the store, but a
truthy non-object body (here the JSON string "x") raises before any payload
is built — the store receives nothing. -/
theorem api_add_app_payload_cex :
    (api_add_app (.str "x") ⟨[], 0⟩).1 = .error .attributeError
    ∧ (api_add_app (.str "x") ⟨[], 0⟩).2.docs = [] :=
  ⟨rfl, rfl⟩

/-- C10 (amended): for every JSON body that parses to an object (a falsy
body is read as the empty object; a truthy non-object raises, see the
counterexample), the payload handed to the store contains exactly the keys
company, title, url, status, date: extra keys of the body are dropped, keys
absent from the body are stored as null, and an absent status is stored as
"wishlist". -/
theorem api_add_app_payload_spec (kvs : List (String × JValue)) (s : MongoState) :
    (api_add_app (.obj kvs) s).2.docs
      = s.docs ++ [("_id", .oid s.nextOid) :: apiPayload kvs]
    ∧ (apiPayload kvs).map Prod.fst = ["company", "title", "url", "status", "date"]
    ∧ jget (apiPayload kvs) "company" = some ((jget kvs "company").getD .null)
    ∧ jget (apiPayload kvs) "title" = some ((jget kvs "title").getD .null)
    ∧ jget (apiPayload kvs) "url" = some ((jget kvs "url").getD .null)
    ∧ jget (apiPayload kvs) "status" = some ((jget kvs "status").getD (.str "wishlist"))
    ∧ jget (apiPayload kvs) "date" = some ((jget kvs "date").getD .null)
    ∧ ∀ k, k ∉ (["company", "title", "url", "status", "date"] : List String) →
        jget (apiPayload kvs) k = none := by
  rcases kvs with _ | ⟨p, rest⟩ <;>
    refine ⟨rfl, rfl, rfl, rfl, rfl, rfl, rfl, ?_⟩ <;>
    · intro k hk
      simp only [List.mem_cons, List.not_mem_nil, or_false, not_or] at hk
      obtain ⟨h1, h2, h3, h4, h5⟩ := hk
      simp [apiPayload, jget, Ne.symm h1, Ne.symm h2, Ne.symm h3, Ne.symm h4, Ne.symm h5]

/-- C10 (witness): the empty body yields a stored payload of all-null
fields with status "wishlist", and an unrelated key is absent from it. -/
theorem api_add_app_payload_spec_witness :
    (api_add_app (.obj []) ⟨[], 0⟩).2.docs
      = [[("_id", .oid 0), ("company", .null), ("title", .null), ("url", .null),
          ("status", .str "wishlist"), ("date", .null)]]
    ∧ jget (apiPayload []) "location" = none := by
  constructor
  · rw [(api_add_app_payload_spec [] ⟨[], 0⟩).1]
    rfl
  · exact (api_add_app_payload_spec [] ⟨[], 0⟩).2.2.2.2.2.2.2 "location" (by decide)
